import Mathlib

/-!
Verification of the fake-news detector app (`src/app.py`).

The file shallowly embeds the Python code: JSON values returned by
`response.json()` become an inductive `Json` type, the single
`requests.post` call becomes a function `remote : HTTPRequest → RemoteOutcome`
supplied as a parameter (an exception raised by the call or by `.json()` is
`RemoteOutcome.exn`, a parsed body is `RemoteOutcome.response`), Python
exceptions inside the `try` block become `Except String`, and Streamlit
secrets become an `Option String`.  `runExplain` returns, next to the
value `explain_with_huggingface` produces, the list of HTTP requests issued,
so that "exactly one network attempt" is a provable statement.
-/

namespace FakeNews

/-- JSON-like values: the possible results of `response.json()` in Python.
Numbers are modelled as rationals (`max_new_tokens` is an int, `temperature`
a float passed through unchanged, so no float arithmetic is ever done). -/
inductive Json where
  | null
  | bool (b : Bool)
  | num (q : ℚ)
  | str (s : String)
  | arr (elems : List Json)
  | obj (fields : List (String × Json))

/-- Outcome of the one `requests.post(...)` / `response.json()` step:
`exn` is any exception raised by the call itself (network failure, auth
failure at transport level, timeout, or a body that does not parse as JSON);
`response` is a successfully parsed JSON body. -/
inductive RemoteOutcome where
  | exn (msg : String)
  | response (body : Json)

/-- The HTTP request `requests.post` is given in `app.py` line 79-84. -/
structure HTTPRequest where
  method : String
  url : String
  headers : List (String × String)
  body : Json
  timeout : Nat

/-- `app.py` line 73. -/
def API_URL : String :=
  "https://api-inference.huggingface.co/models/facebook/blenderbot-400M-distill"

/-- Default of the `max_tokens` parameter of `explain_with_huggingface`
(`app.py` line 53). -/
def defaultMaxTokens : Int := 500

/-- Default of the `temperature` parameter of `explain_with_huggingface`
(`app.py` line 53). -/
def defaultTemperature : ℚ := 0.7

/-- Python subscripting `data[i]` with an integer index, on each `Json`
shape: lists index, strings yield a one-character string, anything else
raises (`dict[0]` is a KeyError since JSON object keys are strings). -/
def pyIndex : Json → Nat → Except String Json
  | .arr xs, i =>
    match xs[i]? with
    | some v => .ok v
    | none => .error "IndexError: list index out of range"
  | .str s, i =>
    match s.data[i]? with
    | some c => .ok (.str (String.mk [c]))
    | none => .error "IndexError: string index out of range"
  | .obj _, _ => .error "KeyError: 0"
  | _, _ => .error "TypeError: object is not subscriptable"

/-- Python subscripting `data[k]` with a string key: dictionaries look the
key up, anything else raises. -/
def pyGetItem : Json → String → Except String Json
  | .obj fields, k =>
    match fields.lookup k with
    | some v => .ok v
    | none => .error ("KeyError: " ++ k)
  | .str _, _ => .error "TypeError: string indices must be integers"
  | _, _ => .error "TypeError: object is not subscriptable"

/-- The f-string prompt of `app.py` lines 58-72 (a triple-quoted literal:
it begins with a newline and keeps the 8-space source indentation). -/
def buildPrompt (article : String) (result : Int) : String :=
  "\n        Analyze the following news article and determine if it is " ++
  (if result = 1 then "REAL" else "FAKE") ++
  ".\n        Provide reasoning in points under each section:\n" ++
  "\n        1. Summary 📄\n        2. Tone ✍️\n        3. Credibility 🔍\n" ++
  "        4. Evidence 📊\n        5. Conclusion 🎯\n\n        Article:\n        " ++
  article ++
  "\n\n        Format your response in points under each section.\n        "

/-- The canned fallback reasoning of `app.py` lines 95-110, chosen by the
test `result == 1`. -/
def fallbackReasoning (result : Int) : String :=
  if result = 1 then
    "1. Summary 📄: ✅ Article is factually correct.\n" ++
    "2. Tone ✍️: Neutral.\n" ++
    "3. Credibility 🔍: Reliable sources.\n" ++
    "4. Evidence 📊: Supported by data.\n" ++
    "5. Conclusion 🎯: Likely real; trustworthy."
  else
    "1. Summary 📄: 🚨 Misleading claims.\n" ++
    "2. Tone ✍️: Sensational.\n" ++
    "3. Credibility 🔍: Unreliable sources.\n" ++
    "4. Evidence 📊: Unsupported.\n" ++
    "5. Conclusion 🎯: Likely fake; verify before trusting."

/-- The request `app.py` lines 79-84 sends: POST to `API_URL`, the
`Authorization: Bearer <key>` header built on line 74 (with `''` as the
default when `HF_API_KEY` is absent from `st.secrets`), the JSON body
`{inputs: prompt, parameters: {max_new_tokens, temperature}}`, timeout 60. -/
def buildRequest (article : String) (result : Int) (key : Option String)
    (max_tokens : Int) (temperature : ℚ) : HTTPRequest where
  method := "POST"
  url := API_URL
  headers := [("Authorization", "Bearer " ++ key.getD "")]
  body := .obj [("inputs", .str (buildPrompt article result)),
                ("parameters", .obj [("max_new_tokens", .num max_tokens),
                                     ("temperature", .num temperature)])]
  timeout := 60

/-- The response handling of `app.py` lines 86-90, as an exception-carrying
computation: raise if the body is a dict containing an `"error"` key
(line 87-88), then evaluate `data[0]["generated_text"]` (line 90). -/
def extractGenerated (data : Json) : Except String Json :=
  match data with
  | .obj fields =>
    if (fields.lookup "error").isSome then .error "embedded service error"
    else (pyIndex data 0).bind (fun first => pyGetItem first "generated_text")
  | _ => (pyIndex data 0).bind (fun first => pyGetItem first "generated_text")

/-- `explain_with_huggingface` (`app.py` lines 52-111), instrumented with
the list of HTTP requests it issues.  The whole body sits in a
`try/except Exception` whose handler returns the label-dependent canned
reasoning paired with `False`; the `try` part checks the truthiness of the
header string `"Bearer " + key` (line 76: `if not headers["Authorization"]`,
raising before any request), posts once, and parses the response.  The
first component of the returned pair is the Python pair
`(reasoning_text, is_dynamic)`. -/
def runExplain (article : String) (result : Int) (key : Option String)
    (max_tokens : Int) (temperature : ℚ)
    (remote : HTTPRequest → RemoteOutcome) : (Json × Bool) × List HTTPRequest :=
  let fallback : Json × Bool := (.str (fallbackReasoning result), false)
  let auth : String := "Bearer " ++ key.getD ""
  if auth = "" then
    (fallback, [])
  else
    let req := buildRequest article result key max_tokens temperature
    match remote req with
    | .exn _ => (fallback, [req])
    | .response data =>
      match extractGenerated data with
      | .ok t => ((t, true), [req])
      | .error _ => (fallback, [req])

/-- The value `explain_with_huggingface` returns to its caller:
`(reasoning_text, is_dynamic)`. -/
def explain_with_huggingface (article : String) (result : Int)
    (key : Option String) (max_tokens : Int) (temperature : ℚ)
    (remote : HTTPRequest → RemoteOutcome) : Json × Bool :=
  (runExplain article result key max_tokens temperature remote).1

/-- The spec's `source` enumeration for an `Explanation`. -/
inductive Source where
  | REMOTE
  | FALLBACK

/-- The `is_dynamic` boolean of the code is the spec's `source` tag:
`True` is REMOTE reasoning, `False` the fallback. -/
def sourceOf (is_dynamic : Bool) : Source :=
  if is_dynamic then .REMOTE else .FALLBACK

/-- The failure condition of the one remote attempt: either the post /
JSON-parse raised, or the parsed body is rejected by lines 86-90 (embedded
`"error"` key, no element at index 0, or no usable `generated_text`). -/
def remoteFails (article : String) (result : Int) (key : Option String)
    (max_tokens : Int) (temperature : ℚ)
    (remote : HTTPRequest → RemoteOutcome) : Prop :=
  (∃ m, remote (buildRequest article result key max_tokens temperature) = .exn m) ∨
  (∃ d e, remote (buildRequest article result key max_tokens temperature) = .response d ∧
    extractGenerated d = .error e)

/-- The whitespace characters Python's `str.strip()` removes (the ASCII
whitespace set: space, tab, newline, carriage return, vertical tab,
form feed). -/
def pyIsSpace (c : Char) : Bool :=
  c = ' ' || c = '\t' || c = '\n' || c = '\r' || c = '\x0b' || c = '\x0c'

/-- Python `s.strip()`: drop leading and trailing whitespace. -/
def pyStrip (s : String) : String :=
  String.mk (((s.data.dropWhile pyIsSpace).reverse.dropWhile pyIsSpace).reverse)

/-- The warning `app.py` line 123 shows when the button is clicked. -/
def inputWarning : String := "⚠️ Please enter a news article to analyze."

/-- The "Check News" button handler (`app.py` lines 121-123): on click,
warn when the stripped text is empty (falsy), otherwise show nothing. -/
def clickCheckNews (news_text : String) : Option String :=
  if pyStrip news_text = "" then some inputWarning else none

/-- The verdict string of `app.py` line 140: `"REAL" if result == 1 else
"FAKE"`. -/
def verdict_text (result : Int) : String :=
  if result = 1 then "REAL" else "FAKE"

/-- What the result column displays (`app.py` lines 126-176). -/
inductive RenderOutcome where
  | awaitingInput
  | verdict (v : String) (explanation : Json) (reasoningLabel : String)

/-- The result column of the page (`app.py` lines 129-165): with empty
stripped input, the "Awaiting Input" box; otherwise classify the text,
display the verdict, and obtain reasoning from `explain_with_huggingface`
at its default `max_tokens`/`temperature`. -/
def renderResult (classify : String → Int) (key : Option String)
    (remote : HTTPRequest → RemoteOutcome) (news_text : String) : RenderOutcome :=
  if pyStrip news_text = "" then
    .awaitingInput
  else
    let result := classify news_text
    let e := explain_with_huggingface news_text result key
      defaultMaxTokens defaultTemperature remote
    .verdict (verdict_text result) e.1
      (if e.2 then "Dynamic AI reasoning (Hugging Face)"
       else "Offline fallback reasoning")

/-- `pat` is a prefix of `s`, as the characters of the strings. -/
def strStartsWith (s pat : String) : Bool :=
  pat.data.isPrefixOf s.data

/-- Auxiliary substring scan over character lists. -/
def containsAux (pat : List Char) : List Char → Bool
  | [] => pat.isEmpty
  | c :: t => pat.isPrefixOf (c :: t) || containsAux pat t

/-- `pat` occurs as a contiguous substring of `s`. -/
def strContains (s pat : String) : Bool :=
  containsAux pat.data s.data

/-! ### Helper lemmas -/

/-- The header string built on `app.py` line 74 is never empty: it always
starts with the seven characters of `"Bearer "`, whatever the key. -/
theorem bearer_ne_empty (s : String) : ("Bearer " ++ s) ≠ "" := by
  intro h
  have h2 : ("Bearer " ++ s).data = "".data := congrArg String.data h
  simp [String.data_append] at h2

/-- The guard of `app.py` lines 76-77 never fires, so a failing attempt
still issues exactly one request and returns the canned reasoning. -/
theorem runExplain_fail (article : String) (result : Int) (key : Option String)
    (max_tokens : Int) (temperature : ℚ) (remote : HTTPRequest → RemoteOutcome)
    (h : remoteFails article result key max_tokens temperature remote) :
    runExplain article result key max_tokens temperature remote
      = ((.str (fallbackReasoning result), false),
         [buildRequest article result key max_tokens temperature]) := by
  obtain ⟨m, hm⟩ | ⟨d, e, hd, he⟩ := h <;> simp only [runExplain] <;>
    rw [if_neg (bearer_ne_empty (key.getD ""))]
  · rw [hm]
  · simp [hd, he]

/-- A successful attempt with a usable `generated_text` also issues exactly
one request and returns that text tagged as dynamic. -/
theorem runExplain_success (article : String) (result : Int) (key : Option String)
    (max_tokens : Int) (temperature : ℚ) (remote : HTTPRequest → RemoteOutcome)
    (d t : Json)
    (hd : remote (buildRequest article result key max_tokens temperature) = .response d)
    (ht : extractGenerated d = .ok t) :
    runExplain article result key max_tokens temperature remote
      = ((t, true), [buildRequest article result key max_tokens temperature]) := by
  simp only [runExplain]
  rw [if_neg (bearer_ne_empty (key.getD ""))]
  simp [hd, ht]

/-- Response handling on an array whose first element carries the looked-up
field: `data[0]["generated_text"]` succeeds. -/
theorem extractGenerated_arr_obj (fields : List (String × Json)) (rest : List Json)
    (g : Json) (hg : fields.lookup "generated_text" = some g) :
    extractGenerated (.arr (.obj fields :: rest)) = .ok g := by
  simp [extractGenerated, pyIndex, pyGetItem, Except.bind, hg]

/-- Response handling on a dict with an `"error"` key: the raise on
`app.py` line 88. -/
theorem extractGenerated_obj_error (fields : List (String × Json))
    (herr : (fields.lookup "error").isSome = true) :
    extractGenerated (.obj fields) = .error "embedded service error" := by
  simp [extractGenerated, herr]

/-- A list of whitespace characters is wholly dropped. -/
theorem dropWhile_of_all {p : Char → Bool} {l : List Char} (h : l.all p = true) :
    l.dropWhile p = [] := by
  rw [List.dropWhile_eq_nil_iff]
  intro x hx
  exact (List.all_eq_true.mp h) x hx

/-- Stripping an all-whitespace string leaves the empty string: the
condition `not news_text.strip()` of `app.py` lines 122 and 129. -/
theorem pyStrip_of_all_space {s : String} (h : s.data.all pyIsSpace = true) :
    pyStrip s = "" := by
  unfold pyStrip
  rw [dropWhile_of_all h]
  rfl

/-! ### Claim theorems -/

/-- C1: the code contradicts the claim that an absent `HF_API_KEY` is an
immediate failure routed to the fallback path.  The guard of `app.py`
line 76 tests the truthiness of the full header string `"Bearer " + key`,
which is never empty, so with no key configured the remote call is still
made (one request is issued, its Authorization header the bare
`"Bearer "`), and a well-formed response body yields a REMOTE result,
not the canned fallback. -/
theorem c1_absent_key_still_calls_remote :
    runExplain "some article" 1 none defaultMaxTokens defaultTemperature
        (fun _ => .response (.arr [.obj [("generated_text", .str "remote text")]]))
      = ((.str "remote text", true),
         [buildRequest "some article" 1 none defaultMaxTokens defaultTemperature])
    ∧ (buildRequest "some article" 1 none defaultMaxTokens defaultTemperature).headers
      = [("Authorization", "Bearer ")] :=
  ⟨rfl, rfl⟩

/-- C2 fails as stated: when the service returns
`[{"generated_text": ""}]` the function returns the empty string as its
text, tagged REMOTE, so the text field is not always non-empty. -/
theorem c2_counterexample :
    explain_with_huggingface "a" 1 (some "key") defaultMaxTokens defaultTemperature
        (fun _ => .response (.arr [.obj [("generated_text", .str "")]]))
      = (.str "", true)
    ∧ sourceOf true = .REMOTE :=
  ⟨rfl, rfl⟩

set_option maxRecDepth 4096 in
/-- C2 (amended): for every input and every remote behaviour,
`explain_with_huggingface` is a total function (the whole body is wrapped
in `try/except`, so nothing escapes its boundary) whose source tag is
exactly REMOTE or FALLBACK; every FALLBACK result carries the canned
label-dependent text, which is non-empty; only a REMOTE result may carry
an empty text, copied verbatim from the response. -/
theorem c2_total_and_source_binary (article : String) (result : Int)
    (key : Option String) (max_tokens : Int) (temperature : ℚ)
    (remote : HTTPRequest → RemoteOutcome) :
    (sourceOf (explain_with_huggingface article result key max_tokens temperature remote).2
        = .REMOTE
      ∨ (sourceOf (explain_with_huggingface article result key max_tokens temperature remote).2
          = .FALLBACK
        ∧ (explain_with_huggingface article result key max_tokens temperature remote).1
          = .str (fallbackReasoning result)))
    ∧ 0 < (fallbackReasoning result).length := by
  constructor
  · rcases hrem : remote (buildRequest article result key max_tokens temperature) with m | d
    · right
      rw [explain_with_huggingface,
        runExplain_fail article result key max_tokens temperature remote (Or.inl ⟨m, hrem⟩)]
      exact ⟨rfl, rfl⟩
    · rcases hext : extractGenerated d with e | t
      · right
        rw [explain_with_huggingface,
          runExplain_fail article result key max_tokens temperature remote
            (Or.inr ⟨d, e, hrem, hext⟩)]
        exact ⟨rfl, rfl⟩
      · left
        rw [explain_with_huggingface,
          runExplain_success article result key max_tokens temperature remote d t hrem hext]
        rfl
  · unfold fallbackReasoning
    split <;> decide

/-- C3: a successful remote call whose parsed body is an array whose first
element is an object with a `generated_text` string field yields a REMOTE
result whose text is that field's value verbatim. -/
theorem c3_remote_success_verbatim (article : String) (result : Int)
    (key : Option String) (max_tokens : Int) (temperature : ℚ)
    (remote : HTTPRequest → RemoteOutcome)
    (fields : List (String × Json)) (rest : List Json) (g : String)
    (hresp : remote (buildRequest article result key max_tokens temperature)
      = .response (.arr (.obj fields :: rest)))
    (hg : fields.lookup "generated_text" = some (.str g)) :
    explain_with_huggingface article result key max_tokens temperature remote
      = (.str g, true) := by
  rw [explain_with_huggingface,
    runExplain_success article result key max_tokens temperature remote
      (.arr (.obj fields :: rest)) (.str g) hresp
      (extractGenerated_arr_obj fields rest (.str g) hg)]

theorem c3_witness :
    explain_with_huggingface "breaking news" 0 (some "k")
        defaultMaxTokens defaultTemperature
        (fun _ => .response (.arr [.obj [("generated_text", .str "hello")]]))
      = (.str "hello", true) :=
  c3_remote_success_verbatim "breaking news" 0 (some "k")
    defaultMaxTokens defaultTemperature _
    [("generated_text", .str "hello")] [] "hello" rfl rfl

/-- C4: when the parsed response is an object containing an `error` field,
the raise of `app.py` line 88 routes to the except handler and the result
is the label's canned fallback, never REMOTE. -/
theorem c4_error_object_falls_back (article : String) (result : Int)
    (key : Option String) (max_tokens : Int) (temperature : ℚ)
    (remote : HTTPRequest → RemoteOutcome) (fields : List (String × Json))
    (hresp : remote (buildRequest article result key max_tokens temperature)
      = .response (.obj fields))
    (herr : (fields.lookup "error").isSome = true) :
    explain_with_huggingface article result key max_tokens temperature remote
      = (.str (fallbackReasoning result), false) := by
  rw [explain_with_huggingface,
    runExplain_fail article result key max_tokens temperature remote
      (Or.inr ⟨.obj fields, "embedded service error", hresp,
        extractGenerated_obj_error fields herr⟩)]

theorem c4_witness :
    explain_with_huggingface "a" 1 (some "k") defaultMaxTokens defaultTemperature
        (fun _ => .response (.obj [("error", .str "rate limited")]))
      = (.str (fallbackReasoning 1), false) :=
  c4_error_object_falls_back "a" 1 (some "k") defaultMaxTokens defaultTemperature
    _ [("error", .str "rate limited")] rfl rfl

/-- C5: every failure of the attempt — an exception from the post or the
JSON parse (network, auth, timeout, malformed body) or a parsed body the
handler rejects (embedded `error` field, empty array / missing index 0,
missing or unusable `generated_text`) — yields one and the same outcome,
the label-dependent canned fallback, with exactly one request issued
(no retry) and no dependence on the failure cause. -/
theorem c5_uniform_failure (article : String) (result : Int)
    (key : Option String) (max_tokens : Int) (temperature : ℚ)
    (remote : HTTPRequest → RemoteOutcome)
    (h : remoteFails article result key max_tokens temperature remote) :
    runExplain article result key max_tokens temperature remote
      = ((.str (fallbackReasoning result), false),
         [buildRequest article result key max_tokens temperature]) :=
  runExplain_fail article result key max_tokens temperature remote h

theorem c5_witness :
    runExplain "a" 0 (some "k") defaultMaxTokens defaultTemperature
        (fun _ => .response (.arr []))
      = ((.str (fallbackReasoning 0), false),
         [buildRequest "a" 0 (some "k") defaultMaxTokens defaultTemperature]) :=
  c5_uniform_failure "a" 0 (some "k") defaultMaxTokens defaultTemperature _
    (Or.inr ⟨.arr [], "IndexError: list index out of range", rfl, rfl⟩)

/-- C6: on the fallback path with no credential configured, the REAL
(result 1) reasoning starts with "1. Summary" and contains "Likely real",
the FAKE (any other result) reasoning contains "Likely fake", and both are
tagged as fallback (`is_dynamic = False`). -/
theorem c6_fallback_text_shape (article : String) (result : Int)
    (max_tokens : Int) (temperature : ℚ)
    (remote₁ remote₂ : HTTPRequest → RemoteOutcome)
    (h₁ : remoteFails article 1 none max_tokens temperature remote₁)
    (hr : result ≠ 1)
    (h₂ : remoteFails article result none max_tokens temperature remote₂) :
    explain_with_huggingface article 1 none max_tokens temperature remote₁
        = (.str (fallbackReasoning 1), false)
    ∧ strStartsWith (fallbackReasoning 1) "1. Summary" = true
    ∧ strContains (fallbackReasoning 1) "Likely real" = true
    ∧ explain_with_huggingface article result none max_tokens temperature remote₂
        = (.str (fallbackReasoning result), false)
    ∧ strContains (fallbackReasoning result) "Likely fake" = true := by
  refine ⟨?_, by decide, by decide, ?_, ?_⟩
  · rw [explain_with_huggingface,
      runExplain_fail article 1 none max_tokens temperature remote₁ h₁]
  · rw [explain_with_huggingface,
      runExplain_fail article result none max_tokens temperature remote₂ h₂]
  · unfold fallbackReasoning
    rw [if_neg hr]
    decide

theorem c6_witness :
    explain_with_huggingface "a" 1 none 500 defaultTemperature
        (fun _ => .exn "network down")
      = (.str (fallbackReasoning 1), false)
    ∧ strStartsWith (fallbackReasoning 1) "1. Summary" = true
    ∧ strContains (fallbackReasoning 1) "Likely real" = true
    ∧ explain_with_huggingface "a" 0 none 500 defaultTemperature
        (fun _ => .exn "timeout")
      = (.str (fallbackReasoning 0), false)
    ∧ strContains (fallbackReasoning 0) "Likely fake" = true :=
  c6_fallback_text_shape "a" 0 500 defaultTemperature
    (fun _ => .exn "network down") (fun _ => .exn "timeout")
    (Or.inl ⟨"network down", rfl⟩) (by decide) (Or.inl ⟨"timeout", rfl⟩)

/-- C7: submitting an empty or whitespace-only article performs no
classification — the rendered outcome is the "Awaiting Input" box whatever
the classifier, key and remote endpoint are, so neither is ever consulted —
and the button handler shows the input-required warning. -/
theorem c7_blank_input_no_classification (news_text : String)
    (h : news_text.data.all pyIsSpace = true) :
    (∀ classify key remote,
      renderResult classify key remote news_text = .awaitingInput)
    ∧ clickCheckNews news_text = some inputWarning := by
  have hs : pyStrip news_text = "" := pyStrip_of_all_space h
  constructor
  · intro classify key remote
    rw [renderResult, if_pos hs]
  · rw [clickCheckNews, if_pos hs]

theorem c7_witness :
    renderResult (fun _ => 1) (some "k") (fun _ => .exn "net") "  \t\n " = .awaitingInput
    ∧ clickCheckNews "  \t\n " = some inputWarning :=
  ⟨(c7_blank_input_no_classification "  \t\n " (by decide)).1
      (fun _ => 1) (some "k") (fun _ => .exn "net"),
   (c7_blank_input_no_classification "  \t\n " (by decide)).2⟩

/-- Every run issues exactly the one request built from its arguments. -/
theorem runExplain_requests (article : String) (result : Int)
    (key : Option String) (max_tokens : Int) (temperature : ℚ)
    (remote : HTTPRequest → RemoteOutcome) :
    (runExplain article result key max_tokens temperature remote).2
      = [buildRequest article result key max_tokens temperature] := by
  simp only [runExplain]
  rw [if_neg (bearer_ne_empty (key.getD ""))]
  rcases hrem : remote (buildRequest article result key max_tokens temperature) with m | d
  · rfl
  · rcases hext : extractGenerated d with e | t <;> simp [hext]

/-- C8: every invocation makes a single attempt, a POST to the fixed URL
carrying the `Authorization: Bearer` header, the JSON body
`{inputs: prompt, parameters: {max_new_tokens, temperature}}` and the
fixed timeout of 60; the declared defaults are 500 tokens and
temperature 0.7. -/
theorem c8_request_shape (article : String) (result : Int)
    (key : Option String) (max_tokens : Int) (temperature : ℚ)
    (remote : HTTPRequest → RemoteOutcome) :
    (runExplain article result key max_tokens temperature remote).2
        = [buildRequest article result key max_tokens temperature]
    ∧ (buildRequest article result key max_tokens temperature).method = "POST"
    ∧ (buildRequest article result key max_tokens temperature).url = API_URL
    ∧ (buildRequest article result key max_tokens temperature).headers
        = [("Authorization", "Bearer " ++ key.getD "")]
    ∧ (buildRequest article result key max_tokens temperature).body
        = .obj [("inputs", .str (buildPrompt article result)),
                ("parameters", .obj [("max_new_tokens", .num max_tokens),
                                     ("temperature", .num temperature)])]
    ∧ (buildRequest article result key max_tokens temperature).timeout = 60
    ∧ defaultMaxTokens = 500
    ∧ defaultTemperature = 0.7 :=
  ⟨runExplain_requests article result key max_tokens temperature remote,
   rfl, rfl, rfl, rfl, rfl, rfl, rfl⟩

/-- C9: the fallback branch is fully deterministic — two failing
invocations whose results fall in the same class of the test
`result == 1` return identical values, whatever the articles, keys,
generation parameters, remote behaviours or failure causes were. -/
theorem c9_fallback_deterministic (a₁ a₂ : String) (r₁ r₂ : Int)
    (k₁ k₂ : Option String) (mt₁ mt₂ : Int) (t₁ t₂ : ℚ)
    (remote₁ remote₂ : HTTPRequest → RemoteOutcome)
    (h₁ : remoteFails a₁ r₁ k₁ mt₁ t₁ remote₁)
    (h₂ : remoteFails a₂ r₂ k₂ mt₂ t₂ remote₂)
    (hlabel : r₁ = 1 ↔ r₂ = 1) :
    explain_with_huggingface a₁ r₁ k₁ mt₁ t₁ remote₁
      = explain_with_huggingface a₂ r₂ k₂ mt₂ t₂ remote₂ := by
  rw [explain_with_huggingface, explain_with_huggingface,
    runExplain_fail a₁ r₁ k₁ mt₁ t₁ remote₁ h₁,
    runExplain_fail a₂ r₂ k₂ mt₂ t₂ remote₂ h₂]
  have hfb : fallbackReasoning r₁ = fallbackReasoning r₂ := by
    unfold fallbackReasoning
    by_cases hc : r₁ = 1
    · rw [if_pos hc, if_pos (hlabel.mp hc)]
    · rw [if_neg hc, if_neg (fun h2 => hc (hlabel.mpr h2))]
  rw [hfb]

theorem c9_witness :
    explain_with_huggingface "first article" 0 none 500 defaultTemperature
        (fun _ => .exn "timeout")
      = explain_with_huggingface "second article" 2 (some "k") 80 0.1
        (fun _ => .response (.obj [("error", .str "overloaded")])) :=
  c9_fallback_deterministic "first article" "second article" 0 2 none (some "k")
    500 80 defaultTemperature 0.1
    (fun _ => .exn "timeout")
    (fun _ => .response (.obj [("error", .str "overloaded")]))
    (Or.inl ⟨"timeout", rfl⟩)
    (Or.inr ⟨.obj [("error", .str "overloaded")], "embedded service error", rfl, rfl⟩)
    (by decide)

/-- C10: the code inspects the classifier output only through the test
`result == 1`: every value other than 1 displays the verdict FAKE and
selects the fake canned reasoning, and 1 alone displays REAL and selects
the real canned reasoning. -/
theorem c10_branches_on_eq_one (r : Int) (hr : r ≠ 1) :
    verdict_text r = "FAKE"
    ∧ fallbackReasoning r =
        "1. Summary 📄: 🚨 Misleading claims.\n" ++
        "2. Tone ✍️: Sensational.\n" ++
        "3. Credibility 🔍: Unreliable sources.\n" ++
        "4. Evidence 📊: Unsupported.\n" ++
        "5. Conclusion 🎯: Likely fake; verify before trusting."
    ∧ verdict_text 1 = "REAL"
    ∧ fallbackReasoning 1 =
        "1. Summary 📄: ✅ Article is factually correct.\n" ++
        "2. Tone ✍️: Neutral.\n" ++
        "3. Credibility 🔍: Reliable sources.\n" ++
        "4. Evidence 📊: Supported by data.\n" ++
        "5. Conclusion 🎯: Likely real; trustworthy." := by
  refine ⟨?_, ?_, rfl, rfl⟩
  · rw [verdict_text, if_neg hr]
  · rw [fallbackReasoning, if_neg hr]

theorem c10_witness :
    verdict_text 2 = "FAKE"
    ∧ fallbackReasoning 2 =
        "1. Summary 📄: 🚨 Misleading claims.\n" ++
        "2. Tone ✍️: Sensational.\n" ++
        "3. Credibility 🔍: Unreliable sources.\n" ++
        "4. Evidence 📊: Unsupported.\n" ++
        "5. Conclusion 🎯: Likely fake; verify before trusting."
    ∧ verdict_text 1 = "REAL"
    ∧ fallbackReasoning 1 =
        "1. Summary 📄: ✅ Article is factually correct.\n" ++
        "2. Tone ✍️: Neutral.\n" ++
        "3. Credibility 🔍: Reliable sources.\n" ++
        "4. Evidence 📊: Supported by data.\n" ++
        "5. Conclusion 🎯: Likely real; trustworthy." :=
  c10_branches_on_eq_one 2 (by decide)

end FakeNews
